import Mathlib

/-!
Verification development for the parallel text-humanization pipeline
(stage 3 orchestration / merge and stage 4 detector ensemble / refinement).

The Python sources are shallowly embedded as executable Lean definitions:

* the merge and refinement tasks from
  `stage3_parallel_processing/src/tasks/humanization_tasks.py`
  (`merge_chunks_task`, `verification_task`, `iterative_refinement_task`),
  embedded as they actually execute: the helpers these tasks invoke through
  `self.` (`_join_text_segments`, `_post_process_text`,
  `_generate_refined_prompt`, ...) are `def`s nested inside the task
  function bodies after code that always returns or raises — unreachable
  local definitions never bound to the Celery task instance — so the
  `self.` lookups raise `AttributeError` and the tasks take their error
  paths;
* error classification from
  `stage3_parallel_processing/src/utils/error_handling.py` (`classify_api_error`);
* the detector ensemble from
  `stage4_verification/src/services/detector_service.py`
  (`_safe_detect`, `_run_parallel_detection`, `_create_verification_report`,
  `_calculate_overall_confidence`, `_generate_recommendations`, `verify_text`),
  whose methods are ordinary, reachable class methods.

External effects (the individual detector `detect` coroutines, the inner
stage-4 verification attempt) are modelled as oracle parameters; an oracle
returning `Except.error` models the call raising an exception.  A task that
itself raises is modelled as returning `Except.error` with the exception
text (Python quotes inside those messages are dropped).  Python floats are
modelled as rationals, Python strings as Lean strings processed through
their character lists.  Wall-clock timestamps (`time.time()`) are omitted
from the embedded records since no verified property mentions them.
-/

/-- Python `str.strip()` / `rstrip()` whitespace set (ASCII part):
space, tab, newline, carriage return, vertical tab, form feed. -/
def pyIsSpace (c : Char) : Bool :=
  c == ' ' || c == '\t' || c == '\n' || c == '\r' || c == '\x0b' || c == '\x0c'

/-- Drop trailing whitespace characters (Python `str.rstrip()` on a char list). -/
def rstripChars (cs : List Char) : List Char :=
  (cs.reverse.dropWhile pyIsSpace).reverse

/-- Drop leading whitespace characters. -/
def lstripChars (cs : List Char) : List Char :=
  cs.dropWhile pyIsSpace

/-- Python `str.strip()`. -/
def pyStrip (s : String) : String :=
  ⟨lstripChars (rstripChars s.data)⟩

/-- Python `sep.join(list)`. -/
def strIntercalate (sep : String) : List String → String
  | [] => ""
  | [s] => s
  | s :: rest => s ++ sep ++ strIntercalate sep rest

/-- Aggregated token usage, the `total_tokens` dict of `merge_chunks_task`. -/
structure TokenUsage where
  prompt_tokens : Nat
  completion_tokens : Nat
  total_tokens : Nat
deriving DecidableEq, Repr

/-- One processed chunk, the result dict of `humanize_chunk_task`
(humanization_tasks.py:256-270). -/
structure ChunkResult where
  chunk_id : String
  original_content : String
  humanized_content : String
  processing_time : ℚ
  token_usage : TokenUsage
  index : Nat
deriving DecidableEq, Repr

/-- The result-dict shape `merge_chunks_task` promises (humanization_tasks.py:
393-405 with the `processing_summary` of lines 383-391; wall-clock
`merge_time` omitted, `missing_indices_warning` standing for the
index-integrity warning of lines 347-354).  The task never actually
constructs it: see `merge_chunks`. -/
structure MergedDocument where
  humanized_text : String
  chunks_processed : Nat
  chunks_merged : Nat
  original_length : Nat
  humanized_length : Nat
  total_processing_time : ℚ
  token_usage_summary : TokenUsage
  missing_indices_warning : Bool
deriving DecidableEq, Repr

/-- Embedding of `merge_chunks_task` as it actually executes
(humanization_tasks.py:340-420).  `_join_text_segments` and
`_post_process_text` are `def`s nested inside the task function body after
its `with` block: unreachable local definitions, never bound to the Celery
task instance.  An empty input raises
`ChunkProcessingError("No chunk results to merge")` at line 342.  For every
non-empty input the sort by index, the index-integrity warning and the
usage aggregation of lines 344-372 do run, but line 375 then evaluates
`self._join_text_segments(humanized_segments)`, which raises
`AttributeError` because the task object has no such attribute; the
intermediate results are discarded.  Either exception reaches the generic
handler at lines 417-420 and is re-raised as
`ChunkProcessingError("Failed to merge chunks: " + str(e))`, so the task
errors on every input and never returns a merged document. -/
def merge_chunks (chunk_results : List ChunkResult) : Except String MergedDocument :=
  if chunk_results.isEmpty then
    Except.error "Failed to merge chunks: No chunk results to merge"
  else
    Except.error
      "Failed to merge chunks: AttributeError: merge_chunks_task object has no attribute _join_text_segments"

/-- Which exception class `classify_api_error` constructs:
`TransientAPIError` (retryable) or `PermanentAPIError` (not retried). -/
inductive ErrorKind where
  | transient
  | permanent
deriving DecidableEq, Repr

/-- The exception object built by `classify_api_error`: its class, the
`error_code` keyword argument, the formatted message, and the status code. -/
structure ClassifiedError where
  kind : ErrorKind
  error_code : String
  message : String
  status_code : Int
deriving DecidableEq, Repr

/-- Embedding of `classify_api_error` (error_handling.py:73-126).  Status
codes are Python ints, so the domain is `Int`. -/
def classify_api_error (status_code : Int) (error_message : String) : ClassifiedError :=
  if status_code = 429 then
    ⟨ErrorKind.transient, "RATE_LIMITED", "Rate limited: " ++ error_message, status_code⟩
  else if 500 ≤ status_code ∧ status_code < 600 then
    ⟨ErrorKind.transient, "SERVER_ERROR", "Server error: " ++ error_message, status_code⟩
  else if status_code = 401 ∨ status_code = 403 then
    ⟨ErrorKind.permanent, "AUTH_ERROR", "Authentication error: " ++ error_message, status_code⟩
  else if status_code = 400 then
    ⟨ErrorKind.permanent, "BAD_REQUEST", "Bad request: " ++ error_message, status_code⟩
  else if 400 ≤ status_code ∧ status_code < 500 then
    ⟨ErrorKind.permanent, "CLIENT_ERROR", "Client error: " ++ error_message, status_code⟩
  else
    ⟨ErrorKind.transient, "UNKNOWN_ERROR", "Unknown error: " ++ error_message, status_code⟩

/-- Confidence levels of `DetectionConfidence` (detector_service.py:24-30). -/
inductive Confidence where
  | very_low
  | low
  | medium
  | high
  | very_high
deriving DecidableEq, Repr

/-- Classification outcomes of `DetectionResult` (detector_service.py:33-37). -/
inductive DetectionVerdict where
  | human
  | ai_generated
  | uncertain
deriving DecidableEq, Repr

/-- One detector's result, the `DetectionScore` dataclass
(detector_service.py:40-50); `metadata` is omitted, probabilities and
times are rationals. -/
structure DetectionScore where
  detector_name : String
  detector_type : String
  ai_probability : ℚ
  confidence : Confidence
  result : DetectionVerdict
  processing_time_ms : ℚ
  error : Option String
deriving DecidableEq, Repr

/-- Behaviour of one detector's `detect(text)` coroutine as observed by
`_safe_detect`: it returns a score, exceeds the timeout, or raises. -/
inductive DetectorOutcome where
  | ok (score : DetectionScore)
  | timeout
  | exn (msg : String)
deriving DecidableEq, Repr

/-- A configured detector: its registry name, its `detector_type`
attribute, and the behaviour of its `detect` call on the text under
verification. -/
structure DetectorSpec where
  name : String
  dtype : String
  outcome : DetectorOutcome
deriving DecidableEq, Repr

/-- Whether the detector call fails (raises or times out). -/
def DetectorOutcome.isFailure : DetectorOutcome → Bool
  | DetectorOutcome.ok _ => false
  | DetectorOutcome.timeout => true
  | DetectorOutcome.exn _ => true

/-- Embedding of `_safe_detect` (detector_service.py:290-332): a timeout is
replaced by a neutral score with `error = "Detection timeout"` and
`processing_time_ms = timeout * 1000`; any other exception by a neutral
score with the exception text and zero processing time. -/
def safe_detect (detection_timeout : ℚ) (d : DetectorSpec) : DetectionScore :=
  match d.outcome with
  | DetectorOutcome.ok s => s
  | DetectorOutcome.timeout =>
    { detector_name := d.name, detector_type := d.dtype, ai_probability := 0.5,
      confidence := Confidence.very_low, result := DetectionVerdict.uncertain,
      processing_time_ms := detection_timeout * 1000, error := some "Detection timeout" }
  | DetectorOutcome.exn e =>
    { detector_name := d.name, detector_type := d.dtype, ai_probability := 0.5,
      confidence := Confidence.very_low, result := DetectionVerdict.uncertain,
      processing_time_ms := 0, error := some e }

/-- Embedding of `_run_parallel_detection` (detector_service.py:223-260):
one `_safe_detect` per configured detector, in order (`asyncio.gather`
preserves task order).  The `isinstance(result, Exception)` branch is dead
code, since `_safe_detect` already converts every failure into an error
score, so the run is exactly a map. -/
def run_parallel_detection (detection_timeout : ℚ) (detectors : List DetectorSpec) :
    List DetectionScore :=
  detectors.map (safe_detect detection_timeout)

/-- Embedding of `_calculate_overall_confidence` (detector_service.py:
398-420): fewer than two scores give `low`; otherwise the population
variance of the probabilities is banded. -/
def calculate_overall_confidence (scores : List DetectionScore) (avg_probability : ℚ) :
    Confidence :=
  if scores.length < 2 then Confidence.low
  else
    let variance :=
      ((scores.map (fun s => (s.ai_probability - avg_probability) ^ 2)).sum) / (scores.length : ℚ)
    if variance < 0.05 then Confidence.very_high
    else if variance < 0.1 then Confidence.high
    else if variance < 0.2 then Confidence.medium
    else if variance < 0.3 then Confidence.low
    else Confidence.very_low

/-- Python `", ".join(names)`. -/
def joinComma (names : List String) : String :=
  strIntercalate ", " names

/-- Embedding of `_generate_recommendations` (detector_service.py:422-460). -/
def generate_recommendations (overall_result : DetectionVerdict)
    (scores : List DetectionScore) (avg_probability : ℚ) : List String :=
  let base : List String :=
    match overall_result with
    | DetectionVerdict.ai_generated =>
      ["Text appears to be AI-generated - consider reprocessing with modified prompts"]
        ++ (if avg_probability > 0.8 then
              ["High AI probability detected - aggressive humanization required"]
            else [])
        ++ (let high_ai := (scores.filter (fun s => s.ai_probability > 0.7)).map
              DetectionScore.detector_name
            if high_ai.isEmpty then [] else ["Flagged by: " ++ joinComma high_ai])
    | DetectionVerdict.human =>
      ["Text appears human-written - verification passed"]
    | DetectionVerdict.uncertain =>
      ["Detection results uncertain - manual review recommended"]
        ++ (let ai_votes := (scores.filter
              (fun s => s.result = DetectionVerdict.ai_generated)).length
            let human_votes := (scores.filter
              (fun s => s.result = DetectionVerdict.human)).length
            if 0 < ai_votes ∧ 0 < human_votes then
              ["Conflicting detector results - consider additional verification methods"]
            else [])
  let failed := (scores.filter (fun s => s.error ≠ none)).map DetectionScore.detector_name
  base ++ (if failed.isEmpty then []
           else ["Failed detectors: " ++ joinComma failed ++ " - check system health"])

/-- The aggregated report of `verify_text`, the `VerificationReport`
dataclass (detector_service.py:53-65); the wall-clock total time and
timestamp are omitted, `valid_detectors` / `failed_detectors` are the
metadata counts of lines 390-394. -/
structure VerificationReport where
  text_id : String
  text_sample : String
  overall_result : DetectionVerdict
  overall_confidence : Confidence
  ai_probability_avg : ℚ
  detector_scores : List DetectionScore
  recommendations : List String
  valid_detectors : Nat
  failed_detectors : Nat
deriving DecidableEq, Repr

/-- Python `text[:100] + "..." if len(text) > 100 else text`. -/
def textSample (text : String) : String :=
  if 100 < text.length then String.mk (text.data.take 100) ++ "..." else text

/-- Embedding of `_create_verification_report` (detector_service.py:334-396):
if every score carries an error, return the degraded all-failed report
(`uncertain`, average `0.5`); otherwise average the error-free scores,
band the average symmetrically around the configured threshold, and derive
confidence from detector agreement. -/
def create_verification_report (threshold : ℚ) (text_id : String) (text : String)
    (scores : List DetectionScore) : VerificationReport :=
  let valid_scores := scores.filter (fun s => s.error = none)
  if valid_scores.isEmpty then
    { text_id := text_id, text_sample := textSample text,
      overall_result := DetectionVerdict.uncertain,
      overall_confidence := Confidence.very_low,
      ai_probability_avg := 0.5,
      detector_scores := scores,
      recommendations := ["All detectors failed - manual review required"],
      valid_detectors := 0, failed_detectors := scores.length }
  else
    let avg := ((valid_scores.map DetectionScore.ai_probability).sum) / (valid_scores.length : ℚ)
    let overall_result :=
      if avg < threshold - 0.2 then DetectionVerdict.human
      else if avg > threshold + 0.2 then DetectionVerdict.ai_generated
      else DetectionVerdict.uncertain
    { text_id := text_id, text_sample := textSample text,
      overall_result := overall_result,
      overall_confidence := calculate_overall_confidence valid_scores avg,
      ai_probability_avg := avg,
      detector_scores := scores,
      recommendations := generate_recommendations overall_result valid_scores avg,
      valid_detectors := valid_scores.length,
      failed_detectors := scores.length - valid_scores.length }

/-- Embedding of `DetectorService.verify_text` (detector_service.py:168-221)
on the parallel path: run every active detector through `_safe_detect` and
aggregate with `_create_verification_report`.  `threshold` is the
`ai_probability_threshold` config entry (default `0.5`), `detection_timeout`
the `detection_timeout` config entry (default `60`). -/
def verify_text (threshold detection_timeout : ℚ) (text_id text : String)
    (detectors : List DetectorSpec) : VerificationReport :=
  create_verification_report threshold text_id text
    (run_parallel_detection detection_timeout detectors)

/-- Summary a successful stage-4 verification hands back to
`verification_task` (humanization_tasks.py:705-721): the aggregate
probability and the recommendation string, from which
`passed_verification` is derived. -/
structure StageFourOutcome where
  overall_ai_probability : ℚ
  recommendation : String
deriving DecidableEq, Repr

/-- The whole inner verification attempt of `verification_task`
(detector service construction, event loop, `verify_text`), as an oracle:
`Except.error` models any exception raised while verifying. -/
def VerifierFn : Type := String → Except String StageFourOutcome

/-- Result dict of `verification_task` (humanization_tasks.py:756-808):
`original` carries the incoming merged-result dict, whose keys the task
spreads unchanged into its result; keys only present on one path are
`Option`s. -/
structure VerificationTaskOutput (α : Type) where
  original : α
  verification_status : String
  verification_error : Option String
  passed_verification : Bool
  recommendation : String
  overall_ai_probability : Option ℚ
deriving DecidableEq, Repr

/-- Embedding of `verification_task` (humanization_tasks.py:624-808),
generic in the shape `α` of the merged result it decorates.  Empty text
raises `ValueError("No text to verify")`; that exception, like any
exception from the verifier, is caught by the task's outer handler, which
returns the merged result augmented with `verification_status="error"`,
`passed_verification=False` and `recommendation="NEEDS_REFINEMENT"`
instead of failing the pipeline. -/
def verification_task_model {α : Type} (getText : α → String) (verifier : VerifierFn)
    (humanized_result : α) : VerificationTaskOutput α :=
  let text := getText humanized_result
  if pyStrip text = "" then
    { original := humanized_result, verification_status := "error",
      verification_error := some "No text to verify", passed_verification := false,
      recommendation := "NEEDS_REFINEMENT", overall_ai_probability := none }
  else
    match verifier text with
    | Except.ok r =>
      { original := humanized_result, verification_status := "completed",
        verification_error := none,
        passed_verification := decide (r.recommendation = "ACCEPT"),
        recommendation := r.recommendation,
        overall_ai_probability := some r.overall_ai_probability }
    | Except.error e =>
      { original := humanized_result, verification_status := "error",
        verification_error := some e, passed_verification := false,
        recommendation := "NEEDS_REFINEMENT", overall_ai_probability := none }

/-- One entry of the `detector_results` list inside a verification result,
as read by `_generate_refined_prompt`. -/
structure DetectorResultEntry where
  detector_name : String
  ai_probability : ℚ
deriving DecidableEq, Repr

/-- A verification-result dict as consumed by `iterative_refinement_task`:
the fields the loop reads via `.get`.  `ai_threshold` stands for
`verification_config.get("ai_threshold", 0.3)`. -/
structure RefVerification where
  humanized_text : String
  passed_verification : Bool
  overall_ai_probability : ℚ
  recommendation : String
  detector_results : List DetectorResultEntry
  ai_threshold : ℚ
deriving DecidableEq, Repr

/-- Outcome recorded in one `refinement_attempt` dict: either the
`"completed"` update of humanization_tasks.py:899-908 or the `"failed"`
update of lines 941-946. -/
inductive AttemptOutcome where
  | completed (new_ai_probability improvement : ℚ) (passed_verification : Bool)
      (recommendation : String)
  | failed (error : String)
deriving DecidableEq, Repr

/-- One entry of `refinement_history` (humanization_tasks.py:876-882 plus
the completion update); wall-clock timestamps are omitted.  At runtime the
history stays empty, since the loop aborts before recording an attempt. -/
structure RefinementAttempt where
  iteration : Nat
  previous_ai_probability : ℚ
  refined_prompt : String
  text_length : Nat
  outcome : AttemptOutcome
deriving DecidableEq, Repr

/-- The result dict of `iterative_refinement_task`
(humanization_tasks.py:847-981); wall-clock processing time omitted. -/
structure RefinementOutput where
  final_verification_result : RefVerification
  refinement_history : List RefinementAttempt
  iterations_used : Nat
  final_status : String
deriving DecidableEq, Repr

/-- Embedding of `iterative_refinement_task` as it actually executes
(humanization_tasks.py:811-981).  The already-passed short-circuit (lines
844-853) returns `COMPLETED` with empty history and zero iterations before
any broken helper is touched.  Otherwise: empty text raises `ValueError`
at line 857 before `refinement_history` is assigned at line 859, and the
outer handler at line 974 then references `refinement_history`, so the
task raises `UnboundLocalError` (modelled as `Except.error`).  With a zero
iteration budget the `for` loop body never runs and lines 962-968 return
`EXHAUSTED` with `iterations_used = max_iterations` and empty history.
With a positive budget the first iteration evaluates
`self._generate_refined_prompt(...)` at line 869 — `_generate_refined_prompt`
is an unreachable nested `def` never bound to the task — so
`AttributeError` is raised, caught by the outer handler at line 970, which
returns `final_status = "ERROR"` with the initial verification, empty
history and `iterations_used = len(refinement_history) = 0`.  The
handler also records an `"error"` key with the exception text, omitted
from the record like the wall-clock fields. -/
def iterative_refinement_task_model (verification_result : RefVerification)
    (max_iterations : Nat) : Except String RefinementOutput :=
  if verification_result.passed_verification then
    Except.ok { final_verification_result := verification_result, refinement_history := [],
                iterations_used := 0, final_status := "COMPLETED" }
  else if pyStrip verification_result.humanized_text = "" then
    Except.error
      "UnboundLocalError: local variable refinement_history referenced before assignment"
  else if max_iterations = 0 then
    Except.ok { final_verification_result := verification_result, refinement_history := [],
                iterations_used := max_iterations, final_status := "EXHAUSTED" }
  else
    Except.ok { final_verification_result := verification_result, refinement_history := [],
                iterations_used := 0, final_status := "ERROR" }

/-- Concrete chunk results for the fan-out/fan-in scenarios. -/
def chunkA : ChunkResult :=
  { chunk_id := "job_chunk_0", original_content := "A.", humanized_content := "A.",
    processing_time := 0, token_usage := ⟨0, 0, 0⟩, index := 0 }

/-- Second scenario chunk. -/
def chunkB : ChunkResult :=
  { chunk_id := "job_chunk_1", original_content := "B.", humanized_content := "B.",
    processing_time := 0, token_usage := ⟨0, 0, 0⟩, index := 1 }

/-- Third scenario chunk. -/
def chunkC : ChunkResult :=
  { chunk_id := "job_chunk_2", original_content := "C.", humanized_content := "C.",
    processing_time := 0, token_usage := ⟨0, 0, 0⟩, index := 2 }

/-- Helper: a list with no failing element filters to the empty list under a
predicate that only holds on failures; stated generally for reuse. -/
theorem filter_length_split {α : Type} (p : α → Bool) (l : List α) :
    (l.filter p).length + (l.filter (fun a => !p a)).length = l.length := by
  induction l with
  | nil => simp
  | cons a t ih =>
    by_cases h : p a = true <;> simp [List.filter, h] <;> omega

/-- C4: `classify_api_error` returns a transient error for status 429 and
every 5xx status, a permanent error for every other 4xx status (401, 403,
400 included), and a transient error for every status outside 400-599
(unrecognized codes are fail-safe retryable). -/
theorem classify_api_error_parity (s : Int) (msg : String) :
    ((s = 429 ∨ (500 ≤ s ∧ s ≤ 599)) → (classify_api_error s msg).kind = ErrorKind.transient)
    ∧ ((400 ≤ s ∧ s ≤ 499 ∧ s ≠ 429) → (classify_api_error s msg).kind = ErrorKind.permanent)
    ∧ ((s < 400 ∨ 599 < s) → (classify_api_error s msg).kind = ErrorKind.transient) := by
  unfold classify_api_error
  split_ifs with h1 h2 h3 h4 h5 <;>
    refine ⟨fun hh => ?_, fun hh => ?_, fun hh => ?_⟩ <;>
    first
      | rfl
      | (exfalso; rcases h3 with h3 | h3 <;> omega)
      | (exfalso; omega)

/-- Witness for C4 at the four statuses named by the spec scenario. -/
theorem classify_api_error_parity_witness :
    (classify_api_error 429 "x").kind = ErrorKind.transient
    ∧ (classify_api_error 401 "x").kind = ErrorKind.permanent
    ∧ (classify_api_error 500 "x").kind = ErrorKind.transient
    ∧ (classify_api_error 404 "x").kind = ErrorKind.permanent :=
  ⟨(classify_api_error_parity 429 "x").1 (Or.inl rfl),
   (classify_api_error_parity 401 "x").2.1 (by omega),
   (classify_api_error_parity 500 "x").1 (Or.inr (by omega)),
   (classify_api_error_parity 404 "x").2.1 (by omega)⟩

/-- C10: `verification_task` is total with respect to the pipeline: when the
verifier raises (including the empty-text `ValueError`), the task returns
the original merged-result fields unchanged, augmented with
`verification_status = "error"`, `passed_verification = False`, and
`recommendation = "NEEDS_REFINEMENT"`, instead of propagating. -/
theorem verification_task_error_isolation {α : Type} (getText : α → String)
    (verifier : VerifierFn) (hr : α)
    (h : pyStrip (getText hr) = "" ∨ ∃ e, verifier (getText hr) = Except.error e) :
    (verification_task_model getText verifier hr).original = hr
    ∧ (verification_task_model getText verifier hr).verification_status = "error"
    ∧ (verification_task_model getText verifier hr).passed_verification = false
    ∧ (verification_task_model getText verifier hr).recommendation = "NEEDS_REFINEMENT" := by
  unfold verification_task_model
  rcases h with h | ⟨e, he⟩
  · simp [h]
  · by_cases h0 : pyStrip (getText hr) = ""
    · simp [h0]
    · simp [h0, he]

/-- Witness for C10: a verifier that raises on the (non-empty) merged text. -/
theorem verification_task_error_isolation_witness :
    (verification_task_model (fun _ : Unit => "Some text.")
        (fun _ => Except.error "detector crash") ()).verification_status = "error"
    ∧ (verification_task_model (fun _ : Unit => "Some text.")
        (fun _ => Except.error "detector crash") ()).passed_verification = false
    ∧ (verification_task_model (fun _ : Unit => "Some text.")
        (fun _ => Except.error "detector crash") ()).recommendation = "NEEDS_REFINEMENT" := by
  have h := verification_task_error_isolation (fun _ : Unit => "Some text.")
    (fun _ => Except.error "detector crash") () (Or.inr ⟨"detector crash", rfl⟩)
  exact ⟨h.2.1, h.2.2.1, h.2.2.2⟩

/-- C8: an initial verification result that already passed short-circuits
the refinement task: status `COMPLETED`, empty history, zero iterations,
and the initial verification returned unchanged.  This branch
(humanization_tasks.py:844-853) precedes every broken helper call, so it
executes exactly as written. -/
theorem refinement_short_circuit (vr : RefVerification) (m : Nat)
    (h : vr.passed_verification = true) :
    iterative_refinement_task_model vr m =
      Except.ok { final_verification_result := vr, refinement_history := [],
                  iterations_used := 0, final_status := "COMPLETED" } := by
  unfold iterative_refinement_task_model
  simp [h]

/-- Concrete already-accepted verification result for the C8 witness. -/
def acceptedVerification : RefVerification :=
  { humanized_text := "Fine text.", passed_verification := true,
    overall_ai_probability := 0.1, recommendation := "ACCEPT",
    detector_results := [], ai_threshold := 0.3 }

/-- Witness for C8 at a concrete accepted verification and budget 3. -/
theorem refinement_short_circuit_witness :
    iterative_refinement_task_model acceptedVerification 3 =
      Except.ok { final_verification_result := acceptedVerification, refinement_history := [],
                  iterations_used := 0, final_status := "COMPLETED" } :=
  refinement_short_circuit acceptedVerification 3 rfl

/-- C5 (code bug): at the three-chunk scenario `["A.", "B.", "C."]` the
task raises `ChunkProcessingError` — the `AttributeError` on the unbound
`_join_text_segments` — instead of returning any merged text, so neither
the claimed `"A.\n\nB.\n\nC.\n"` nor any other document is produced. -/
theorem merge_basic_scenario_raises :
    merge_chunks [chunkA, chunkB, chunkC] = Except.error
      "Failed to merge chunks: AttributeError: merge_chunks_task object has no attribute _join_text_segments" :=
  rfl

/-- C6 (code bug): merge does not fail only on empty input.  The empty list
raises the documented empty-input error, but the non-empty missing-chunk
input with indices `{0, 2}` raises as well (the unbound
`_join_text_segments`), so every input fails and no document with the
present chunks is ever returned. -/
theorem merge_gap_input_raises :
    merge_chunks ([] : List ChunkResult)
      = Except.error "Failed to merge chunks: No chunk results to merge"
    ∧ merge_chunks [chunkC, chunkA]
      = Except.error
          "Failed to merge chunks: AttributeError: merge_chunks_task object has no attribute _join_text_segments" :=
  ⟨rfl, rfl⟩

/-- C1 (code bug): the merge cannot be order-independent because it cannot
merge at all — `merge_chunks_task` raises `ChunkProcessingError` on every
non-empty input, so no `humanized_text` exists to compare; both arrival
orders of the same two chunks produce the identical exception. -/
theorem merge_order_restoration_unreachable :
    merge_chunks [chunkB, chunkA] = merge_chunks [chunkA, chunkB]
    ∧ merge_chunks [chunkB, chunkA] = Except.error
        "Failed to merge chunks: AttributeError: merge_chunks_task object has no attribute _join_text_segments" :=
  ⟨rfl, rfl⟩

/-- The error-free scores of a detection run are exactly the results of the
non-failing detectors, provided succeeding detectors hand back scores with
no `error` field set (as the shipped detectors do on their success path). -/
theorem valid_scores_eq (t : ℚ) (ds : List DetectorSpec)
    (hok : ∀ d ∈ ds, ∀ s, d.outcome = DetectorOutcome.ok s → s.error = none) :
    (ds.map (safe_detect t)).filter (fun s => s.error = none)
      = (ds.filter (fun d => !d.outcome.isFailure)).map (safe_detect t) := by
  induction ds with
  | nil => rfl
  | cons d rest ih =>
    have hok2 : ∀ d2 ∈ rest, ∀ s, d2.outcome = DetectorOutcome.ok s → s.error = none :=
      fun d2 hd2 s hs => hok d2 (List.mem_cons_of_mem _ hd2) s hs
    rcases h : d.outcome with s | _ | e
    · have hs : s.error = none := hok d (List.mem_cons_self _ _) s h
      simp [List.filter, safe_detect, h, hs, DetectorOutcome.isFailure, ih hok2]
    · simp [List.filter, safe_detect, h, DetectorOutcome.isFailure, ih hok2]
    · simp [List.filter, safe_detect, h, DetectorOutcome.isFailure, ih hok2]

/-- Counting form of `valid_scores_eq`: with `M` failing detectors out of
`N`, exactly `N - M` scores are error-free. -/
theorem valid_scores_count (t : ℚ) (ds : List DetectorSpec)
    (hok : ∀ d ∈ ds, ∀ s, d.outcome = DetectorOutcome.ok s → s.error = none) :
    ((ds.map (safe_detect t)).filter (fun s => s.error = none)).length
      = ds.length - (ds.filter (fun d => d.outcome.isFailure)).length := by
  rw [valid_scores_eq t ds hok, List.length_map]
  have hsplit : (ds.filter (fun d => d.outcome.isFailure)).length
      + (ds.filter (fun d => !d.outcome.isFailure)).length = ds.length := by
    simpa using filter_length_split (fun d => d.outcome.isFailure) ds
  omega

/-- C3: when every configured detector errors or times out, the report
degrades to `ai_probability_avg = 0.5` and `overall_result = uncertain`
and the verification call still returns (it is a total function). -/
theorem all_detectors_fail_degradation (threshold t : ℚ) (tid text : String)
    (ds : List DetectorSpec) (h : ∀ d ∈ ds, d.outcome.isFailure = true) :
    (verify_text threshold t tid text ds).ai_probability_avg = 0.5
    ∧ (verify_text threshold t tid text ds).overall_result = DetectionVerdict.uncertain := by
  have hempty : (ds.map (safe_detect t)).filter (fun s => s.error = none) = [] := by
    rw [List.filter_eq_nil_iff]
    intro s hs
    obtain ⟨d, hd, rfl⟩ := List.mem_map.mp hs
    have hf := h d hd
    rcases ho : d.outcome with s0 | _ | e
    · rw [ho] at hf
      simp [DetectorOutcome.isFailure] at hf
    · simp [safe_detect, ho]
    · simp [safe_detect, ho]
  unfold verify_text create_verification_report run_parallel_detection
  simp [hempty]

/-- A detector whose `detect` call exceeds its timeout. -/
def timeoutDetector : DetectorSpec :=
  { name := "perplexity", dtype := "perplexity", outcome := DetectorOutcome.timeout }

/-- A detector whose `detect` call raises. -/
def crashDetector : DetectorSpec :=
  { name := "roberta", dtype := "transformer", outcome := DetectorOutcome.exn "model load failed" }

/-- Witness for C3: both configured detectors fail. -/
theorem all_detectors_fail_degradation_witness :
    (verify_text 0.5 60 "t1" "Some text." [timeoutDetector, crashDetector]).ai_probability_avg = 0.5
    ∧ (verify_text 0.5 60 "t1" "Some text."
        [timeoutDetector, crashDetector]).overall_result = DetectionVerdict.uncertain :=
  all_detectors_fail_degradation 0.5 60 "t1" "Some text." [timeoutDetector, crashDetector]
    (by decide)

/-- C2: with `M < N` detectors failing (raising or timing out) and the
remaining detectors returning error-free scores, `verify_text` still
returns a report containing one score per detector, exactly `N - M` of
them error-free, and `ai_probability_avg` is the mean over exactly those
`N - M` error-free scores. -/
theorem ensemble_fault_isolation (threshold t : ℚ) (tid text : String) (ds : List DetectorSpec)
    (hok : ∀ d ∈ ds, ∀ s, d.outcome = DetectorOutcome.ok s → s.error = none)
    (hM : (ds.filter (fun d => d.outcome.isFailure)).length < ds.length) :
    (verify_text threshold t tid text ds).detector_scores.length = ds.length
    ∧ (((verify_text threshold t tid text ds).detector_scores.filter
          (fun s => s.error = none)).length
        = ds.length - (ds.filter (fun d => d.outcome.isFailure)).length)
    ∧ (verify_text threshold t tid text ds).ai_probability_avg
        = (((verify_text threshold t tid text ds).detector_scores.filter
              (fun s => s.error = none)).map DetectionScore.ai_probability).sum
          / ((ds.length - (ds.filter (fun d => d.outcome.isFailure)).length : ℕ) : ℚ) := by
  have hvc := valid_scores_count t ds hok
  have hpos : 0 < ((ds.map (safe_detect t)).filter (fun s => s.error = none)).length := by
    omega
  have hne : (ds.map (safe_detect t)).filter (fun s => s.error = none) ≠ [] :=
    List.length_pos.mp hpos
  have hie : ((ds.map (safe_detect t)).filter (fun s => s.error = none)).isEmpty = false := by
    simp [List.isEmpty_iff, hne]
  unfold verify_text create_verification_report run_parallel_detection
  simp only [hie, Bool.false_eq_true, if_false]
  refine ⟨List.length_map _ _, hvc, ?_⟩
  rw [hvc]

/-- A detector that succeeds with a clean (error-free) score. -/
def cleanScore : DetectionScore :=
  { detector_name := "perplexity", detector_type := "perplexity", ai_probability := 0.2,
    confidence := Confidence.high, result := DetectionVerdict.human,
    processing_time_ms := 5, error := none }

/-- The succeeding detector for the C2 witness. -/
def okDetector : DetectorSpec :=
  { name := "perplexity", dtype := "perplexity", outcome := DetectorOutcome.ok cleanScore }

/-- Witness for C2: one of two detectors times out (`M = 1`, `N = 2`); the
report keeps both scores, exactly one error-free, and averages over it. -/
theorem ensemble_fault_isolation_witness :
    (verify_text 0.5 60 "t1" "Some text." [okDetector, timeoutDetector]).detector_scores.length = 2
    ∧ (((verify_text 0.5 60 "t1" "Some text." [okDetector, timeoutDetector]).detector_scores.filter
          (fun s => s.error = none)).length = 1)
    ∧ (verify_text 0.5 60 "t1" "Some text." [okDetector, timeoutDetector]).ai_probability_avg
        = 0.2 := by
  have hok : ∀ d ∈ [okDetector, timeoutDetector], ∀ s,
      d.outcome = DetectorOutcome.ok s → s.error = none := by
    intro d hd s hs
    rcases List.mem_cons.mp hd with rfl | hd2
    · rw [show okDetector.outcome = DetectorOutcome.ok cleanScore from rfl] at hs
      injection hs with h2
      rw [← h2]
      rfl
    · rcases List.mem_cons.mp hd2 with rfl | hd3
      · exact absurd hs (by simp [timeoutDetector])
      · exact absurd hd3 (List.not_mem_nil d)
  have h := ensemble_fault_isolation 0.5 60 "t1" "Some text." [okDetector, timeoutDetector]
    hok (by decide)
  refine ⟨h.1, h.2.1, ?_⟩
  have hscores : (verify_text 0.5 60 "t1" "Some text."
      [okDetector, timeoutDetector]).detector_scores.filter (fun s => s.error = none)
      = [cleanScore] := rfl
  have hflen : (List.filter (fun d => d.outcome.isFailure)
      [okDetector, timeoutDetector]).length = 1 := rfl
  rw [h.2.2, hscores, hflen]
  norm_num [cleanScore]

/-- C9 counterexample: a report over exactly one error-free score has zero
variance (`< 0.05`), yet its overall confidence is `low`, not `very_high`:
`_calculate_overall_confidence` short-circuits to `low` whenever fewer
than two scores agree, before looking at the variance. -/
theorem confidence_single_score_counterexample :
    (create_verification_report 0.5 "t1" "Some text." [cleanScore]).overall_confidence
        = Confidence.low
    ∧ (create_verification_report 0.5 "t1" "Some text." [cleanScore]).overall_confidence
        ≠ Confidence.very_high
    ∧ (create_verification_report 0.5 "t1" "Some text." [cleanScore]).ai_probability_avg = 0.2
    ∧ (([cleanScore].map (fun s => (s.ai_probability - 0.2) ^ 2)).sum
        / (([cleanScore].length : ℕ) : ℚ)) < 0.05 := by
  refine ⟨rfl, by decide, ?_, ?_⟩
  · unfold create_verification_report
    norm_num [cleanScore, List.filter]
  · norm_num [cleanScore]

/-- C9 (amended): with at least one error-free score, `overall_result` is
banded symmetrically around the threshold `T` exactly as claimed, and
`overall_confidence` is derived from the variance of the error-free
probabilities exactly as claimed whenever there are at least two
error-free scores; with exactly one error-free score the confidence is
`low` regardless of the (zero) variance. -/
theorem aggregation_banding (T : ℚ) (tid text : String) (scores valid : List DetectionScore)
    (avg variance : ℚ)
    (hvalid : valid = scores.filter (fun s => s.error = none))
    (hne : valid ≠ [])
    (havg : avg = (valid.map DetectionScore.ai_probability).sum / (valid.length : ℚ))
    (hvar : variance
      = ((valid.map (fun s => (s.ai_probability - avg) ^ 2)).sum) / (valid.length : ℚ)) :
    (create_verification_report T tid text scores).ai_probability_avg = avg
    ∧ (avg < T - 0.2 →
        (create_verification_report T tid text scores).overall_result = DetectionVerdict.human)
    ∧ (avg > T + 0.2 →
        (create_verification_report T tid text scores).overall_result
          = DetectionVerdict.ai_generated)
    ∧ (T - 0.2 ≤ avg → avg ≤ T + 0.2 →
        (create_verification_report T tid text scores).overall_result
          = DetectionVerdict.uncertain)
    ∧ (valid.length < 2 →
        (create_verification_report T tid text scores).overall_confidence = Confidence.low)
    ∧ (2 ≤ valid.length → variance < 0.05 →
        (create_verification_report T tid text scores).overall_confidence
          = Confidence.very_high)
    ∧ (2 ≤ valid.length → 0.05 ≤ variance → variance < 0.1 →
        (create_verification_report T tid text scores).overall_confidence = Confidence.high)
    ∧ (2 ≤ valid.length → 0.1 ≤ variance → variance < 0.2 →
        (create_verification_report T tid text scores).overall_confidence = Confidence.medium)
    ∧ (2 ≤ valid.length → 0.2 ≤ variance → variance < 0.3 →
        (create_verification_report T tid text scores).overall_confidence = Confidence.low)
    ∧ (2 ≤ valid.length → 0.3 ≤ variance →
        (create_verification_report T tid text scores).overall_confidence
          = Confidence.very_low) := by
  subst hvalid
  have hie : (scores.filter (fun s => s.error = none)).isEmpty = false := by
    simp [List.isEmpty_iff, hne]
  unfold create_verification_report
  simp only [hie, Bool.false_eq_true, if_false]
  rw [← havg]
  unfold calculate_overall_confidence
  rw [← hvar]
  refine ⟨rfl, fun h1 => ?_, fun h2 => ?_, fun h3 h4 => ?_, fun h5 => ?_,
    fun h6 hv1 => ?_, fun h6 hv1 hv2 => ?_, fun h6 hv1 hv2 => ?_,
    fun h6 hv1 hv2 => ?_, fun h6 hv1 => ?_⟩
  · rw [if_pos h1]
  · rw [if_neg (by linarith), if_pos h2]
  · rw [if_neg (not_lt.mpr h3), if_neg (not_lt.mpr h4)]
  · rw [if_pos h5]
  · rw [if_neg (not_lt.mpr h6), if_pos hv1]
  · rw [if_neg (not_lt.mpr h6), if_neg (not_lt.mpr hv1), if_pos hv2]
  · rw [if_neg (not_lt.mpr h6), if_neg (by linarith), if_neg (not_lt.mpr hv1), if_pos hv2]
  · rw [if_neg (not_lt.mpr h6), if_neg (by linarith), if_neg (by linarith),
      if_neg (not_lt.mpr hv1), if_pos hv2]
  · rw [if_neg (not_lt.mpr h6), if_neg (by linarith), if_neg (by linarith),
      if_neg (by linarith), if_neg (not_lt.mpr hv1)]

/-- An error-free score with probability 0.4 for the C9 witness. -/
def scoreP4 : DetectionScore :=
  { detector_name := "perplexity", detector_type := "perplexity", ai_probability := 0.4,
    confidence := Confidence.medium, result := DetectionVerdict.uncertain,
    processing_time_ms := 5, error := none }

/-- An error-free score with probability 0.5 for the C9 witness. -/
def scoreP5 : DetectionScore :=
  { detector_name := "roberta", detector_type := "transformer", ai_probability := 0.5,
    confidence := Confidence.medium, result := DetectionVerdict.uncertain,
    processing_time_ms := 7, error := none }

/-- Witness for C9 (amended): two agreeing error-free scores, average 0.45
inside the uncertain band around 0.5, variance 0.0025 giving very high
confidence. -/
theorem aggregation_banding_witness :
    (create_verification_report 0.5 "t2" "Some text." [scoreP4, scoreP5]).overall_result
        = DetectionVerdict.uncertain
    ∧ (create_verification_report 0.5 "t2" "Some text." [scoreP4, scoreP5]).overall_confidence
        = Confidence.very_high
    ∧ (create_verification_report 0.5 "t2" "Some text." [scoreP4, scoreP5]).ai_probability_avg
        = 0.45 := by
  have h := aggregation_banding 0.5 "t2" "Some text." [scoreP4, scoreP5] [scoreP4, scoreP5]
    0.45 0.0025 rfl (List.cons_ne_nil _ _)
    (by norm_num [scoreP4, scoreP5])
    (by norm_num [scoreP4, scoreP5])
  exact ⟨h.2.2.2.1 (by norm_num) (by norm_num),
    h.2.2.2.2.2.1 (by norm_num) (by norm_num), h.1⟩

/-- A failed verification result with non-empty text, driving the loop
branch of `iterative_refinement_task` for the C7 evaluation. -/
def failingVerification : RefVerification :=
  { humanized_text := "Robot text.", passed_verification := false,
    overall_ai_probability := 0.8, recommendation := "NEEDS_REFINEMENT",
    detector_results := [{ detector_name := "perplexity", ai_probability := 0.8 }],
    ai_threshold := 0.3 }

/-- C7 (code bug): with a failed, non-empty-text initial verification and a
positive iteration budget, the first iteration raises `AttributeError` at
`self._generate_refined_prompt` (an unreachable nested `def` never bound
to the task); the outer handler returns `final_status = "ERROR"` with zero
iterations and an empty history — never the claimed `EXHAUSTED` after `m`
iterations with `m` history entries. -/
theorem refinement_error_divergence :
    ∃ out, iterative_refinement_task_model failingVerification 2 = Except.ok out
      ∧ out.final_status = "ERROR"
      ∧ out.final_status ≠ "EXHAUSTED"
      ∧ out.iterations_used = 0
      ∧ out.refinement_history = [] :=
  ⟨_, rfl, rfl, by decide, rfl, rfl⟩
